import Mathlib

/-!
Shallow embedding of `src/tutor_app.py` (an AI tutoring app: chat handlers,
a suggestion parser, and a study-guide exporter with a Markdown-to-PDF
renderer and a plain-text fallback).

Text is modelled as `List Char` (named `Str`), so that the Python string
operations the code uses (`strip`, `split`, `startswith`, `in`,
`split(sep, 1)`, indexing) can be given exact executable definitions and
reasoned about by induction.  Outcomes of calls to the hosted OpenAI API
(chat completion, transcription, speech synthesis) and of the file-writing
primitives of fpdf / tempfile are modelled as explicit parameters: an
`Except Str Str` for a call that returns text or raises, an `Option Str`
valued function for a renderer that returns a file path or fails.
Python truthiness of a string is emptiness; `None` for an optional string
is `Option.none`.
-/

namespace TutorApp

/-- Text, modelled as a list of characters. -/
abbrev Str := List Char

/-- Coerce a Lean string literal to the `Str` model. -/
def str (s : String) : Str := s.toList

/-- Python `str.isspace` characters relevant to `str.strip()`
(ASCII whitespace; the source never feeds non-ASCII whitespace to `strip`). -/
def pyIsSpace (c : Char) : Bool :=
  c = ' ' || c = '\t' || c = '\n' || c = '\r' || c = '\x0b' || c = '\x0c'

/-- Leading-whitespace removal (left part of Python `str.strip()`). -/
def lstrip (s : Str) : Str := s.dropWhile pyIsSpace

/-- Trailing-whitespace removal (right part of Python `str.strip()`). -/
def rstrip (s : Str) : Str := (s.reverse.dropWhile pyIsSpace).reverse

/-- Python `str.strip()`. -/
def pyStrip (s : Str) : Str := rstrip (lstrip s)

/-- Python `s.startswith(p)`. -/
def pyStartsWith (s p : Str) : Bool := p.isPrefixOf s

/-- Python `s.split("\n")`: split at every newline, keeping empty pieces;
the result is never the empty list. -/
def splitNl : Str → List Str
  | [] => [[]]
  | c :: rest =>
    if c = '\n' then [] :: splitNl rest
    else
      match splitNl rest with
      | [] => [[c]]
      | l :: ls => (c :: l) :: ls

/-- Python `pat in s` (substring containment). -/
def isSub (pat : Str) : Str → Bool
  | [] => pat.isEmpty
  | c :: rest => pat.isPrefixOf (c :: rest) || isSub pat rest

/-- Python `s.split(sep, 1)` for a separator that occurs in `s`:
`some (before, after)` splits at the first occurrence of `sep`;
`none` means `sep` does not occur (Python would return `[s]`). -/
def split1 (sep : Str) : Str → Option (Str × Str)
  | [] => none
  | c :: rest =>
    if sep.isPrefixOf (c :: rest) then some ([], (c :: rest).drop sep.length)
    else (split1 sep rest).map (fun p => (c :: p.1, p.2))

/-- Python `s[0].isdigit()` guarded by nonemptiness (ASCII digits;
the claims only concern ASCII input). -/
def headIsDigit : Str → Bool
  | [] => false
  | c :: _ => c.isDigit

/-- Python `s.isdigit()` (nonempty and all ASCII digits). -/
def pyIsDigitStr (s : Str) : Bool := !s.isEmpty && s.all Char.isDigit

/-- The `"Error"` sentinel text prefix used throughout the source. -/
def errorS : Str := str "Error"

/-- The separator `". "` of numbered list lines. -/
def dotSpace : Str := str ". "

/-! ## Suggestion Generator (`generate_suggested_responses`, lines 160-189) -/

/-- One iteration of the parsing loop of `generate_suggested_responses`
(lines 177-182): a stripped line contributes a suggestion when it is
nonempty, its first character is a digit, `". "` occurs in it, and the
text after the first `". "`, stripped, is nonempty; the suggestion is
that stripped text. -/
def parseLine (line : Str) : Option Str :=
  let line_strip := pyStrip line
  if !line_strip.isEmpty && headIsDigit line_strip && isSub dotSpace line_strip then
    match split1 dotSpace line_strip with
    | some (_, p1) => if (pyStrip p1).isEmpty then none else some (pyStrip p1)
    | none => none
  else none

/-- The parsing stage of `generate_suggested_responses` (lines 175-185):
collect the numbered-line suggestions; if none qualify, fall back to up to
three nonempty stripped lines; truncate to three either way. -/
def parseSuggestions (suggestions_text : Str) : List Str :=
  let lines := splitNl (pyStrip suggestions_text)
  let suggestions := lines.filterMap parseLine
  let suggestions :=
    if suggestions.isEmpty && decide (1 ≤ lines.length) then
      ((lines.map pyStrip).filter (fun l => !l.isEmpty)).take 3
    else suggestions
  suggestions.take 3

/-- `generate_suggested_responses` (lines 160-189).  `completion` is the
outcome of the chat-completion call; the returned Bool records whether
that call was issued.  An empty or `"Error"`-prefixed tutor message yields
no suggestions and no call; a failed call yields the sentinel list
`["Error generating suggestions."]`. -/
def generate_suggested_responses (completion : Except Str Str)
    (tutor_message : Str) : List Str × Bool :=
  if tutor_message.isEmpty || pyStartsWith tutor_message errorS then ([], false)
  else
    match completion with
    | .ok suggestions_text => (parseSuggestions suggestions_text, true)
    | .error _ => ([str "Error generating suggestions."], true)

/-! ## Transcript and Completion Client (`ai_tutor`, lines 138-157) -/

/-- One transcript turn `(user_text, assistant_text)`.  The source treats a
missing side and an empty string identically (Python truthiness in
`if human:` / `if ai:`), so absence is modelled as `[]`. -/
abbrev Turn := Str × Str

/-- One role-tagged message of a chat-completion request. -/
structure ChatMessage where
  role : Str
  content : Str
deriving DecidableEq, Repr

/-- The `SYSTEM_PROMPT` constant (lines 24-48).  Its full conversational
text is irrelevant to every claim (only its position as the system message
matters), so it is abbreviated here. -/
def SYSTEM_PROMPT : Str := str "You are a world-class, patient virtual STEM tutor ..."

/-- The per-turn messages built by the loop of `ai_tutor` (lines 140-142):
a user message when the human side is truthy, then an assistant message
when the assistant side is truthy. -/
def turnMessages : List Turn → List ChatMessage
  | [] => []
  | t :: rest =>
    (if t.1.isEmpty then [] else [⟨str "user", t.1⟩]) ++
    (if t.2.isEmpty then [] else [⟨str "assistant", t.2⟩]) ++
    turnMessages rest

/-- The full message list built by `ai_tutor` (lines 139-143): the system
message, the per-turn messages, then the new user input. -/
def tutorMessages (user_input : Str) (history : List Turn) : List ChatMessage :=
  ⟨str "system", SYSTEM_PROMPT⟩ :: (turnMessages history ++ [⟨str "user", user_input⟩])

/-- `ai_tutor` (lines 138-157).  `chatC` is the outcome of the
chat-completion call on the message list the function builds; on failure
the function returns the `"Error: ..."` sentinel text instead of raising. -/
def ai_tutor (chatC : List ChatMessage → Except Str Str)
    (user_input : Str) (history : List Turn) : Str :=
  match chatC (tutorMessages user_input history) with
  | .ok reply => reply
  | .error e => str "Error: " ++ e ++ str "\n\nPlease check your API key/quota and connection."

/-! ## Speech Bridge (`transcribe_audio`, lines 100-116) -/

/-- `transcribe_audio` (lines 100-116): empty text for absent audio,
transcription text on success, `"Error transcribing audio: ..."` on failure. -/
def transcribe_audio (transC : Except Str Str) (audio_filepath : Option Str) : Str :=
  match audio_filepath with
  | none => []
  | some _ =>
    match transC with
    | .ok t => t
    | .error e => str "Error transcribing audio: " ++ e

/-! ## Study Guide Compiler: content generation
(`generate_study_guide_content`, lines 192-216) -/

/-- `generate_study_guide_content` (lines 192-216).  `genC` is the outcome
of the completion call.  An empty history yields a canned message without
a call; a failed call yields `"Error generating study guide: ..."`; a
successful result that does not start (after stripping) with `"#"` gets the
default level-1 heading prepended. -/
def generate_study_guide_content (genC : Except Str Str)
    (chat_history : List Turn) : Str :=
  if chat_history.isEmpty then str "No conversation history to create a study guide from."
  else
    match genC with
    | .error e => str "Error generating study guide: " ++ e
    | .ok study_guide_content =>
      if !(pyStartsWith (pyStrip study_guide_content) (str "#")) then
        str "# Study Guide: Tutoring Session\n\n" ++ study_guide_content
      else study_guide_content

/-! ## Study Guide Compiler: PDF rendering (`create_pdf`, lines 235-309)

The per-line loop (lines 247-299) writes text chunks into the PDF via
`multi_cell` / `cell`; with the core Arial font those writes raise when the
text cannot be encoded in the output character set.  Encodability of a
character is modelled by the parameter `encOk`; a write of a chunk raises
iff some character of the chunk is not encodable.  A raise inside a line is
caught by the per-line `except`, which then writes the
`"[Skipped line due to processing error]"` marker — itself guarded by an
inner `except: pass`, so the marker only appears if its own write succeeds.
The page-layout side effects (`set_font`, `ln`, `set_x`, colors) carry no
text and cannot encoding-fail; the model tracks the written text chunks. -/

/-- The skip marker written for a line that failed to render (line 297). -/
def skipMarker : Str := str "[Skipped line due to processing error]"

/-- The text chunks the loop body (lines 252-289) writes for one line,
following the branch structure of the source: H1/H2/H3 headings, bullet
items (a bullet glyph then the item text), numbered items (the number then
the item text, or the raw line when the part before `". "` is not all
digits), plain text, or nothing for a blank line. -/
def lineTexts (line : Str) : List Str :=
  let line_strip := pyStrip line
  if pyStartsWith line (str "# ") then [line_strip.drop 2]
  else if pyStartsWith line (str "## ") then [line_strip.drop 3]
  else if pyStartsWith line (str "### ") then [line_strip.drop 4]
  else if pyStartsWith line_strip (str "- ") || pyStartsWith line_strip (str "* ") then
    [str "•", line_strip.drop 2]
  else if !line_strip.isEmpty && headIsDigit line_strip && isSub dotSpace line_strip then
    match split1 dotSpace line_strip with
    | some (p0, p1) => if pyIsDigitStr p0 then [p0 ++ str ".", p1] else [line]
    | none => [line]
  else if !line_strip.isEmpty then [line]
  else []

/-- A text chunk can be written iff all its characters are encodable. -/
def strOk (encOk : Char → Bool) (s : Str) : Bool := s.all encOk

/-- The chunks that end up in the PDF for one line: all of them when every
write succeeds; otherwise the successfully written initial chunks followed
by the skip marker (when the marker write itself succeeds, lines 291-299). -/
def renderOne (encOk : Char → Bool) (line : Str) : List Str :=
  let ts := lineTexts line
  if ts.all (strOk encOk) then ts
  else ts.takeWhile (strOk encOk) ++ (if strOk encOk skipMarker then [skipMarker] else [])

/-- The per-line rendered output of the loop of `create_pdf` over
`study_guide_text.strip().split("\n")` (lines 244-299). -/
def renderedLines (encOk : Char → Bool) (study_guide_text : Str) : List (List Str) :=
  (splitNl (pyStrip study_guide_text)).map (renderOne encOk)

/-- `create_pdf` (lines 235-309): `none` when the fpdf library is missing
(line 236); otherwise the outcome of writing the rendered lines to a
temporary PDF file, modelled by the oracle `pdfOut` (`none` = the
`except` of lines 306-309 caught a failure, `some path` = success). -/
def create_pdf (fpdfAvailable : Bool) (encOk : Char → Bool)
    (pdfOut : List (List Str) → Option Str) (study_guide_text : Str) : Option Str :=
  if !fpdfAvailable then none
  else pdfOut (renderedLines encOk study_guide_text)

/-! ## Study Guide Compiler: text fallback and export
(`create_text_file` lines 219-232, `save_study_guide` lines 312-322) -/

/-- The content written by `create_text_file` (lines 223-227): banner,
separator, the study guide text, separator, generation timestamp `ts`. -/
def textFileContent (ts : Str) (study_guide_text : Str) : Str :=
  str "STEM TUTOR - STUDY GUIDE\n" ++ List.replicate 30 '=' ++ str "\n\n" ++
  study_guide_text ++ str "\n\n" ++ List.replicate 30 '=' ++ str "\n" ++
  str "Generated on " ++ ts ++ str "\n"

/-- `create_text_file` (lines 219-232): writes the annotated text to a
temporary file; the write outcome is modelled by the oracle `txtOut`. -/
def create_text_file (txtOut : Str → Option Str) (ts : Str)
    (study_guide_text : Str) : Option Str :=
  txtOut (textFileContent ts study_guide_text)

/-- Python truthiness of an optional string (`if pdf_path:`):
present and nonempty. -/
def pyTruthy (o : Option Str) : Bool := !(o.getD []).isEmpty

/-- `save_study_guide` (lines 312-322): try the PDF renderer, fall back to
the text renderer, report total failure when both fail. -/
def save_study_guide (fpdfAvailable : Bool) (encOk : Char → Bool)
    (pdfOut : List (List Str) → Option Str) (txtOut : Str → Option Str) (ts : Str)
    (study_guide_text : Str) : Option Str × Str :=
  let pdf_path := create_pdf fpdfAvailable encOk pdfOut study_guide_text
  if pyTruthy pdf_path then (pdf_path, str "Study guide created as PDF!")
  else
    let text_path := create_text_file txtOut ts study_guide_text
    if pyTruthy text_path then (text_path, str "Study guide created as Text (PDF failed).")
    else (none, str "Error creating study guide file (PDF/Text).")

/-! ## Interaction Controller (lines 327-442) -/

/-- The update returned for one suggestion button: visibility and, when
visible, the button text. -/
structure ButtonUpdate where
  visible : Bool
  value : Option Str
deriving DecidableEq, Repr

/-- One iteration of the loop of `update_suggestions` (lines 334-340):
button `i` becomes visible with the suggestion text iff suggestion `i`
exists, is nonempty, and does not start with `"Error"`. -/
def buttonFor (suggestions : List Str) (i : Nat) : ButtonUpdate :=
  match suggestions.get? i with
  | some s =>
    if !s.isEmpty && !(pyStartsWith s errorS) then ⟨true, some s⟩
    else ⟨false, none⟩
  | none => ⟨false, none⟩

/-- `update_suggestions` (lines 332-342): the three button updates. -/
def update_suggestions (suggestions : List Str) :
    ButtonUpdate × ButtonUpdate × ButtonUpdate :=
  (buttonFor suggestions 0, buttonFor suggestions 1, buttonFor suggestions 2)

/-- The outputs of `process_text_and_update`: new textbox value, updated
transcript, audio output path, three suggestion-button updates. -/
structure TextOut where
  msg : Str
  history : List Turn
  audio : Option Str
  b1 : ButtonUpdate
  b2 : ButtonUpdate
  b3 : ButtonUpdate
deriving Repr

/-- `process_text_and_update` (lines 345-365).  Oracles: `chatC` for the
tutor completion, `sugC` for the suggestion completion, `speech` for
`generate_speech` (path or `None`). -/
def process_text_and_update (chatC : List ChatMessage → Except Str Str)
    (sugC : Except Str Str) (speech : Str → Option Str)
    (message : Str) (chat_history : List Turn) (voice_enabled : Bool) : TextOut :=
  if (pyStrip message).isEmpty then
    let s := update_suggestions []
    ⟨[], chat_history, none, s.1, s.2.1, s.2.2⟩
  else
    let bot_message := ai_tutor chatC message chat_history
    let chat_history2 := chat_history ++ [(message, bot_message)]
    let audio_output_path :=
      if voice_enabled && !(pyStartsWith bot_message errorS) then speech bot_message else none
    let suggestions := (generate_suggested_responses sugC bot_message).1
    let s := update_suggestions suggestions
    ⟨[], chat_history2, audio_output_path, s.1, s.2.1, s.2.2⟩

/-- The outputs of `process_audio_and_update`: cleared audio input, updated
transcript, audio output path, three suggestion-button updates. -/
structure AudioOut where
  audioIn : Option Str
  history : List Turn
  audio : Option Str
  b1 : ButtonUpdate
  b2 : ButtonUpdate
  b3 : ButtonUpdate
deriving Repr

/-- `process_audio_and_update` (lines 368-400).  `transC` is the outcome of
the transcription call. -/
def process_audio_and_update (transC : Except Str Str)
    (chatC : List ChatMessage → Except Str Str)
    (sugC : Except Str Str) (speech : Str → Option Str)
    (audio_filepath : Option Str) (chat_history : List Turn)
    (voice_enabled : Bool) : AudioOut :=
  match audio_filepath with
  | none =>
    let s := update_suggestions []
    ⟨none, chat_history, none, s.1, s.2.1, s.2.2⟩
  | some fp =>
    let user_text := transcribe_audio transC (some fp)
    if user_text.isEmpty || pyStartsWith user_text errorS then
      let error_msg_display :=
        if !user_text.isEmpty then user_text
        else str "Audio could not be transcribed or was empty."
      let chat_history2 := chat_history ++ [(str "(Audio input)", error_msg_display)]
      let s := update_suggestions []
      ⟨none, chat_history2, none, s.1, s.2.1, s.2.2⟩
    else
      let bot_message := ai_tutor chatC user_text chat_history
      let chat_history2 := chat_history ++ [(user_text, bot_message)]
      let audio_output_path :=
        if voice_enabled && !(pyStartsWith bot_message errorS) then speech bot_message else none
      let suggestions := (generate_suggested_responses sugC bot_message).1
      let s := update_suggestions suggestions
      ⟨none, chat_history2, audio_output_path, s.1, s.2.1, s.2.2⟩

/-- The `gr.File` update of `create_and_download_study_guide`. -/
structure FileUpdate where
  value : Option Str
  visible : Bool
deriving DecidableEq, Repr

/-- The outputs of `create_and_download_study_guide`, plus whether the
study-guide content-generation completion call was issued. -/
structure GuideOut where
  file : FileUpdate
  status : Str
  generationCalled : Bool
deriving Repr

/-- `create_and_download_study_guide` (lines 404-426): empty history short-
circuits with no generation call; an `"Error"`-prefixed generated content
reports a content error with no file; otherwise the export dispatch of
`save_study_guide` decides the file and status. -/
def create_and_download_study_guide (genC : Except Str Str)
    (fpdfAvailable : Bool) (encOk : Char → Bool)
    (pdfOut : List (List Str) → Option Str) (txtOut : Str → Option Str) (ts : Str)
    (chat_history : List Turn) : GuideOut :=
  if chat_history.isEmpty then
    ⟨⟨none, false⟩, str "*Please have a conversation first.*", false⟩
  else
    let study_guide_text := generate_study_guide_content genC chat_history
    if pyStartsWith study_guide_text errorS then
      ⟨⟨none, false⟩, str "*Error generating content: " ++ study_guide_text ++ str "*", true⟩
    else
      let fs := save_study_guide fpdfAvailable encOk pdfOut txtOut ts study_guide_text
      if pyTruthy fs.1 then ⟨⟨fs.1, true⟩, str "*" ++ fs.2 ++ str "*", true⟩
      else ⟨⟨none, false⟩, str "*Error: " ++ fs.2 ++ str "*", true⟩

/-! ## Definitions following the words of the specification, for comparison
against the definitions above that were translated from the source. -/

/-- Modelled from the claim wording for the suggestion parser: a line
qualifies as a suggestion iff it starts with a digit immediately followed
by `". "` (checked on the stripped line, the laxest reading). -/
def claimQualifies (line : Str) : Bool :=
  match pyStrip line with
  | [] => false
  | c :: rest => c.isDigit && pyStartsWith rest dotSpace

/-- Modelled from the claim wording for the completion client: exactly one
system message first, then one user message and one assistant message per
transcript turn in transcript order, then the new user utterance last. -/
def claimMessages (user_input : Str) (history : List Turn) : List ChatMessage :=
  ⟨str "system", SYSTEM_PROMPT⟩ ::
    (history.foldr (fun t acc => ⟨str "user", t.1⟩ :: ⟨str "assistant", t.2⟩ :: acc)
      [(⟨str "user", user_input⟩ : ChatMessage)])

/-! ## Helper lemmas on the string primitives -/

theorem isPrefixOf_append_self (p t : Str) : p.isPrefixOf (p ++ t) = true := by
  induction p with
  | nil => simp [List.isPrefixOf]
  | cons c cs ih => simp [List.isPrefixOf, ih]

theorem isPrefixOf_append_of_isPrefixOf {p a : Str} (b : Str)
    (h : p.isPrefixOf a = true) : p.isPrefixOf (a ++ b) = true := by
  induction p generalizing a with
  | nil => simp [List.isPrefixOf]
  | cons c cs ih =>
    cases a with
    | nil => simp [List.isPrefixOf] at h
    | cons d ds =>
      simp only [List.isPrefixOf, Bool.and_eq_true, beq_iff_eq] at h ⊢
      exact ⟨h.1, ih h.2⟩

theorem eq_append_drop_of_isPrefixOf {p s : Str} (h : p.isPrefixOf s = true) :
    s = p ++ s.drop p.length := by
  induction p generalizing s with
  | nil => simp
  | cons c cs ih =>
    cases s with
    | nil => simp [List.isPrefixOf] at h
    | cons d ds =>
      simp only [List.isPrefixOf, Bool.and_eq_true, beq_iff_eq] at h
      obtain ⟨rfl, h2⟩ := h
      simpa using ih h2

theorem split1_eq_append {sep s a b : Str} (h : split1 sep s = some (a, b)) :
    s = a ++ sep ++ b := by
  induction s generalizing a with
  | nil => simp [split1] at h
  | cons c rest ih =>
    unfold split1 at h
    by_cases hp : sep.isPrefixOf (c :: rest) = true
    · rw [if_pos hp] at h
      obtain ⟨rfl, rfl⟩ : a = [] ∧ (c :: rest).drop sep.length = b := by
        simpa using h
      simpa using eq_append_drop_of_isPrefixOf hp
    · rw [if_neg hp] at h
      rcases hr : split1 sep rest with _ | ⟨a1, b1⟩ <;> rw [hr] at h
      · simp at h
      · obtain ⟨rfl, rfl⟩ : c :: a1 = a ∧ b1 = b := by simpa using h
        simpa using ih hr

theorem split1_first {sep s a b : Str} (h : split1 sep s = some (a, b)) :
    ∀ a2 b2 : Str, s = a2 ++ sep ++ b2 → a.length ≤ a2.length := by
  induction s generalizing a with
  | nil => simp [split1] at h
  | cons c rest ih =>
    intro a2 b2 he
    unfold split1 at h
    by_cases hp : sep.isPrefixOf (c :: rest) = true
    · rw [if_pos hp] at h
      obtain ⟨rfl, -⟩ : a = [] ∧ (c :: rest).drop sep.length = b := by simpa using h
      simp
    · rw [if_neg hp] at h
      rcases hr : split1 sep rest with _ | ⟨a1, b1⟩ <;> rw [hr] at h
      · simp at h
      · obtain ⟨rfl, rfl⟩ : c :: a1 = a ∧ b1 = b := by simpa using h
        cases a2 with
        | nil =>
          exfalso
          apply hp
          rw [he]
          simp only [List.append_assoc]
          exact isPrefixOf_append_self sep b2
        | cons c2 a2t =>
          simp only [List.cons_append, List.cons.injEq] at he
          exact Nat.succ_le_succ (ih hr a2t b2 he.2)

theorem isSub_nil_left (s : Str) : isSub [] s = true := by
  induction s with
  | nil => rfl
  | cons c rest ih => simp [isSub, ih]

theorem isSub_of_eq_append {sep s : Str} (a b : Str) (h : s = a ++ sep ++ b) :
    isSub sep s = true := by
  induction a generalizing s with
  | nil =>
    subst h
    cases sep with
    | nil => simpa using isSub_nil_left b
    | cons c cs =>
      simp only [List.nil_append, List.cons_append, isSub, Bool.or_eq_true]
      exact Or.inl (isPrefixOf_append_self (c :: cs) b)
  | cons c at' ih =>
    subst h
    simp only [List.cons_append, isSub, Bool.or_eq_true]
    exact Or.inr (ih rfl)

theorem split1_isSome_of_isSub {sep s : Str} (hsep : sep ≠ [])
    (h : isSub sep s = true) : (split1 sep s).isSome = true := by
  induction s with
  | nil =>
    simp only [isSub] at h
    exact absurd (List.isEmpty_iff.mp h) hsep
  | cons c rest ih =>
    simp only [isSub, Bool.or_eq_true] at h
    unfold split1
    by_cases hp : sep.isPrefixOf (c :: rest) = true
    · rw [if_pos hp]; rfl
    · rw [if_neg hp]
      rcases h with h | h
      · exact absurd h hp
      · have hsome := ih h
        rcases ho : split1 sep rest with _ | pr
        · rw [ho] at hsome; simp at hsome
        · simp [ho]

/-- `split1` finds exactly the first occurrence of the separator. -/
theorem split1_eq_of_first {sep s pre post : Str} (hsep : sep ≠ [])
    (he : s = pre ++ sep ++ post)
    (hmin : ∀ pre2 post2 : Str, s = pre2 ++ sep ++ post2 → pre.length ≤ pre2.length) :
    split1 sep s = some (pre, post) := by
  have hsome := split1_isSome_of_isSub hsep (isSub_of_eq_append pre post he)
  rcases ho : split1 sep s with _ | ⟨a, b⟩
  · rw [ho] at hsome; simp at hsome
  · have hab := split1_eq_append ho
    have h1 : a.length ≤ pre.length := split1_first ho pre post he
    have h2 : pre.length ≤ a.length := hmin a b hab
    have hlen : a.length = pre.length := Nat.le_antisymm h1 h2
    have := hab.symm.trans he
    rw [List.append_assoc, List.append_assoc] at this
    obtain ⟨rfl, htail⟩ := List.append_inj this hlen
    obtain ⟨-, rfl⟩ := List.append_inj htail rfl
    rfl

theorem dropWhile_app (p : Char → Bool) (l1 l2 : Str) :
    (l1 ++ l2).dropWhile p =
      if (l1.dropWhile p).isEmpty then l2.dropWhile p else l1.dropWhile p ++ l2 := by
  induction l1 with
  | nil => simp
  | cons c t ih =>
    by_cases hc : p c = true
    · simpa [List.dropWhile_cons, hc] using ih
    · simp [List.dropWhile_cons, hc]

theorem rstrip_cons_of_not_space {c : Char} (t : Str) (h : pyIsSpace c = false) :
    ∃ u, rstrip (c :: t) = c :: u := by
  unfold rstrip
  rw [List.reverse_cons, dropWhile_app]
  by_cases he : ((t.reverse.dropWhile pyIsSpace).isEmpty) = true
  · rw [if_pos he]
    simp [List.dropWhile_cons, h]
  · rw [if_neg he]
    exact ⟨(t.reverse.dropWhile pyIsSpace).reverse, by simp⟩

theorem lstrip_cons_of_not_space {c : Char} (t : Str) (h : pyIsSpace c = false) :
    lstrip (c :: t) = c :: t := by
  simp [lstrip, List.dropWhile_cons, h]

theorem pyStrip_cons_of_not_space {c : Char} (t : Str) (h : pyIsSpace c = false) :
    ∃ u, pyStrip (c :: t) = c :: u := by
  unfold pyStrip
  rw [lstrip_cons_of_not_space t h]
  exact rstrip_cons_of_not_space t h

/-- A visible suggestion button always carries a stored suggestion that is
nonempty and not `"Error"`-prefixed. -/
theorem buttonFor_visible {suggestions : List Str} {i : Nat}
    (h : (buttonFor suggestions i).visible = true) :
    ∃ s, suggestions.get? i = some s ∧ (buttonFor suggestions i).value = some s ∧
      s ≠ [] ∧ pyStartsWith s errorS = false := by
  unfold buttonFor at h ⊢
  split at h
  next s hg =>
    by_cases hc : (!s.isEmpty && !(pyStartsWith s errorS)) = true
    · refine ⟨s, hg, ?_, ?_, ?_⟩
      · simp only [hc, if_pos]
      · intro he
        subst he
        simp at hc
      · simp only [Bool.and_eq_true, Bool.not_eq_true'] at hc
        exact hc.2
    · rw [if_neg hc] at h
      simp at h
  next hg =>
    simp at h

/-! ## The claims -/

/-- C6: applied to the well-formed numbered response text
`"1. a\n2. b\n3. c"`, the suggestion parser returns exactly the sequence
`["a", "b", "c"]`, in that order (shown both for the parsing stage and for
the whole generator on a successful completion). -/
theorem c6_wellformed_parse :
    parseSuggestions (str "1. a\n2. b\n3. c") = [str "a", str "b", str "c"] ∧
    generate_suggested_responses (.ok (str "1. a\n2. b\n3. c")) (str "Hello") =
      ([str "a", str "b", str "c"], true) := by decide

/-- C8: exporting an empty transcript returns an absent, hidden file
artifact together with the no-conversation status message, and issues no
study-guide content-generation call, whatever the oracles for the hosted
calls and renderers would do. -/
theorem c8_empty_export :
    ∀ (genC : Except Str Str) (fpdfAvailable : Bool) (encOk : Char → Bool)
      (pdfOut : List (List Str) → Option Str) (txtOut : Str → Option Str) (ts : Str),
      create_and_download_study_guide genC fpdfAvailable encOk pdfOut txtOut ts [] =
        ⟨⟨none, false⟩, str "*Please have a conversation first.*", false⟩ := by
  intros
  rfl

/-- C9: the suggestion generator returns the empty sequence whenever the
tutor message is empty or starts with `"Error"`, and issues no completion
call (the `false` component), for every completion outcome. -/
theorem c9_no_suggestions_for_error :
    ∀ (completion : Except Str Str) (tutor_message : Str),
      tutor_message = [] ∨ pyStartsWith tutor_message errorS = true →
      generate_suggested_responses completion tutor_message = ([], false) := by
  intro completion tutor_message h
  unfold generate_suggested_responses
  rcases h with rfl | h
  · simp
  · simp [h]

theorem c9_witness :
    (pyStartsWith (str "Error: timeout") errorS = true ∧
      generate_suggested_responses (.ok (str "1. a")) (str "Error: timeout") = ([], false)) ∧
    generate_suggested_responses (.ok (str "1. a")) [] = ([], false) :=
  ⟨⟨by decide, c9_no_suggestions_for_error _ _ (Or.inr (by decide))⟩,
   c9_no_suggestions_for_error _ _ (Or.inl rfl)⟩

/-- C10: for every suggestion list, a suggestion button is made visible
only carrying a suggestion that is nonempty and does not start with
`"Error"`; in particular the sentinel list produced on a
suggestion-generation failure yields three hidden buttons, so no visible
button ever shows `"Error"`-prefixed text. -/
theorem c10_no_error_button :
    (∀ (suggestions : List Str) (b : ButtonUpdate),
        (b = (update_suggestions suggestions).1 ∨
         b = (update_suggestions suggestions).2.1 ∨
         b = (update_suggestions suggestions).2.2) →
        b.visible = true →
        ∃ s, b.value = some s ∧ s ≠ [] ∧ pyStartsWith s errorS = false) ∧
    update_suggestions [str "Error generating suggestions."] =
      (⟨false, none⟩, ⟨false, none⟩, ⟨false, none⟩) := by
  constructor
  · intro ss b hb hv
    rcases hb with rfl | rfl | rfl <;>
      · obtain ⟨s, -, hval, hne, herr⟩ := buttonFor_visible hv
        exact ⟨s, hval, hne, herr⟩
  · decide

theorem c10_witness :
    ∃ s, ((update_suggestions [str "ok"]).1).value = some s ∧ s ≠ [] ∧
      pyStartsWith s errorS = false :=
  c10_no_error_button.1 [str "ok"] (update_suggestions [str "ok"]).1 (Or.inl rfl) (by decide)

/-- C4 counterexample: the line `"1x. hello"` does not start with a digit
immediately followed by `". "` (the `". "` occurs only later), yet the
parser extracts `"hello"` from it as a suggestion; so the claimed
qualification rule is not the one the code implements. -/
theorem c4_counterexample :
    generate_suggested_responses (.ok (str "1x. hello")) (str "Hi") =
      ([str "hello"], true) ∧
    parseLine (str "1x. hello") = some (str "hello") ∧
    claimQualifies (str "1x. hello") = false := by decide

/-- C4 amended: a line qualifies as a suggestion iff its stripped form is
nonempty, starts with a digit, and contains `". "` somewhere with nonempty
trimmed text after the first occurrence; the extracted suggestion is the
text after the first `". "`, trimmed. -/
theorem c4_amended :
    ∀ line s : Str,
      parseLine line = some s ↔
        (pyStrip line ≠ [] ∧ headIsDigit (pyStrip line) = true ∧
          ∃ pre post : Str,
            pyStrip line = pre ++ dotSpace ++ post ∧
            (∀ pre2 post2 : Str, pyStrip line = pre2 ++ dotSpace ++ post2 →
              pre.length ≤ pre2.length) ∧
            s = pyStrip post ∧ pyStrip post ≠ []) := by
  intro line s
  constructor
  · intro h
    simp only [parseLine] at h
    by_cases hc : (!(pyStrip line).isEmpty && headIsDigit (pyStrip line) &&
        isSub dotSpace (pyStrip line)) = true
    · rw [if_pos hc] at h
      simp only [Bool.and_eq_true, Bool.not_eq_true'] at hc
      obtain ⟨⟨hne, hdig⟩, hsub⟩ := hc
      rcases hs : split1 dotSpace (pyStrip line) with _ | ⟨a, b⟩ <;> rw [hs] at h
      · simp at h
      · dsimp only at h
        by_cases hbe : (pyStrip b).isEmpty = true
        · rw [if_pos hbe] at h
          simp at h
        · rw [if_neg hbe] at h
          obtain rfl : pyStrip b = s := by simpa using h
          refine ⟨?_, hdig, a, b, split1_eq_append hs, split1_first hs, rfl, ?_⟩
          · intro he2
            rw [he2] at hne
            simp at hne
          · intro he2
            rw [he2] at hbe
            simp at hbe
    · rw [if_neg hc] at h
      simp at h
  · rintro ⟨hne, hdig, pre, post, he, hmin, rfl, hpne⟩
    have hs := split1_eq_of_first (by decide : dotSpace ≠ ([] : Str)) he hmin
    have hsub := isSub_of_eq_append pre post he
    have hie : (pyStrip line).isEmpty = false := by
      cases hpl : pyStrip line with
      | nil => exact absurd hpl hne
      | cons a t => rfl
    have hcond : (!(pyStrip line).isEmpty && headIsDigit (pyStrip line) &&
        isSub dotSpace (pyStrip line)) = true := by
      rw [hie, hdig, hsub]
      rfl
    have hpie : (pyStrip post).isEmpty ≠ true := by
      intro hx
      exact hpne (List.isEmpty_iff.mp hx)
    simp only [parseLine, if_pos hcond, hs, if_neg hpie]

theorem c4_amended_witness :
    pyStrip (str " 12. xy ") ≠ [] ∧ headIsDigit (pyStrip (str " 12. xy ")) = true ∧
      ∃ pre post : Str,
        pyStrip (str " 12. xy ") = pre ++ dotSpace ++ post ∧
        (∀ pre2 post2 : Str, pyStrip (str " 12. xy ") = pre2 ++ dotSpace ++ post2 →
          pre.length ≤ pre2.length) ∧
        str "xy" = pyStrip post ∧ pyStrip post ≠ [] :=
  (c4_amended (str " 12. xy ") (str "xy")).mp (by decide)

/-- C5 counterexample: study-guide content returned by a successful
completion that begins with the level-2 heading `"## Topic"` is returned
unchanged (the code only checks for a leading `"#"`), so no level-1 heading
line is prepended and the returned content does not begin with a level-1
heading marker `"# "`. -/
theorem c5_counterexample :
    generate_study_guide_content (.ok (str "## Topic")) [(str "hi", str "yo")] =
      str "## Topic" ∧
    pyStartsWith (str "## Topic") (str "# ") = false := by decide

/-- C5 amended: for a nonempty history and successful completion, the
default level-1 heading is prepended iff the stripped content does not
begin with `"#"`; consequently the returned content always begins (after
stripping) with `"#"` — a heading marker of some level, not necessarily
level 1. -/
theorem c5_amended :
    ∀ (chat_history : List Turn) (content : Str),
      chat_history ≠ [] →
      (pyStartsWith (pyStrip content) (str "#") = false →
        generate_study_guide_content (.ok content) chat_history =
          str "# Study Guide: Tutoring Session\n\n" ++ content ∧
        pyStartsWith (generate_study_guide_content (.ok content) chat_history)
          (str "# ") = true) ∧
      (pyStartsWith (pyStrip content) (str "#") = true →
        generate_study_guide_content (.ok content) chat_history = content) ∧
      pyStartsWith (pyStrip (generate_study_guide_content (.ok content) chat_history))
        (str "#") = true := by
  intro hist content hne
  have hie : hist.isEmpty = false := by
    cases hist with
    | nil => exact absurd rfl hne
    | cons a t => rfl
  by_cases hstart : pyStartsWith (pyStrip content) (str "#") = true
  · have hr : generate_study_guide_content (.ok content) hist = content := by
      simp [generate_study_guide_content, hie, hstart]
    refine ⟨fun hfalse => absurd hstart (by simp [hfalse]), fun _ => hr, ?_⟩
    rw [hr]
    exact hstart
  · have hb : pyStartsWith (pyStrip content) (str "#") = false := by
      simpa using hstart
    have hr : generate_study_guide_content (.ok content) hist =
        str "# Study Guide: Tutoring Session\n\n" ++ content := by
      simp [generate_study_guide_content, hie, hb]
    refine ⟨fun _ => ⟨hr, ?_⟩, fun htrue => absurd htrue hstart, ?_⟩
    · rw [hr]
      unfold pyStartsWith
      exact isPrefixOf_append_of_isPrefixOf content (by decide)
    · rw [hr]
      have hcons : str "# Study Guide: Tutoring Session\n\n" ++ content =
          '#' :: (str " Study Guide: Tutoring Session\n\n" ++ content) := rfl
      rw [hcons]
      obtain ⟨u, hu⟩ :=
        pyStrip_cons_of_not_space (str " Study Guide: Tutoring Session\n\n" ++ content)
          (c := '#') (by decide)
      rw [hu]
      simp [pyStartsWith, List.isPrefixOf]

theorem c5_witness :
    generate_study_guide_content (.ok (str "hello")) [(str "q", str "a")] =
      str "# Study Guide: Tutoring Session\n\n" ++ str "hello" ∧
    pyStartsWith (generate_study_guide_content (.ok (str "hello")) [(str "q", str "a")])
      (str "# ") = true :=
  (c5_amended [(str "q", str "a")] (str "hello") (by decide)).1 (by decide)

/-- C7 counterexample: for the transcript `[("hi", "")]` — one turn whose
assistant side is absent (the source treats absent and empty alike) — the
message list built by `ai_tutor` omits the assistant message for that turn
and so differs from the claimed one-user-one-assistant-per-turn shape. -/
theorem c7_counterexample :
    tutorMessages (str "x") [(str "hi", [])] ≠
      claimMessages (str "x") [(str "hi", [])] := by decide

theorem isEmpty_false_of_ne_nil {α : Type} {l : List α} (h : l ≠ []) : l.isEmpty = false := by
  cases l with
  | nil => exact absurd rfl h
  | cons c t => rfl

theorem turnMessages_foldr (history : List Turn) (tail : List ChatMessage)
    (h : ∀ t ∈ history, t.1 ≠ [] ∧ t.2 ≠ []) :
    turnMessages history ++ tail =
      history.foldr (fun t acc => ⟨str "user", t.1⟩ :: ⟨str "assistant", t.2⟩ :: acc)
        tail := by
  induction history with
  | nil => rfl
  | cons t rest ih =>
    have ht := h t (List.mem_cons_self t rest)
    have hrest : ∀ x ∈ rest, x.1 ≠ [] ∧ x.2 ≠ [] :=
      fun x hx => h x (List.mem_cons_of_mem t hx)
    simp only [turnMessages, isEmpty_false_of_ne_nil ht.1, isEmpty_false_of_ne_nil ht.2,
      List.foldr_cons, Bool.false_eq_true, if_false]
    rw [← ih hrest]
    simp

/-- C7 amended: for every transcript all of whose turns have nonempty user
text and nonempty assistant text, the completion client builds exactly one
system message first, then one user and one assistant message per turn in
transcript order, then the new user utterance last. -/
theorem c7_amended :
    ∀ (user_input : Str) (history : List Turn),
      (∀ t ∈ history, t.1 ≠ [] ∧ t.2 ≠ []) →
      tutorMessages user_input history = claimMessages user_input history := by
  intro u history h
  unfold tutorMessages claimMessages
  exact congrArg _ (turnMessages_foldr history [⟨str "user", u⟩] h)

theorem c7_witness :
    tutorMessages (str "x") [(str "q", str "a")] =
      claimMessages (str "x") [(str "q", str "a")] :=
  c7_amended (str "x") [(str "q", str "a")] (by decide)

/-- C3: for every submit-text or submit-audio event with non-empty input,
exactly one turn is appended to the transcript — the existing turns are
kept unchanged as a prefix — whether the completion succeeded or failed.
For the text handler the appended turn is exactly
`(message, ai_tutor ...)`, whose assistant side is the reply on success and
`"Error"`-prefixed text on failure.  For the audio handler: when the
transcription is empty or fails, the appended turn is exactly
`("(Audio input)", error text)` where the error text is `"Error"`-prefixed
or the canned could-not-transcribe message; when transcription succeeds,
the appended turn is exactly `(transcribed text, ai_tutor ...)`, whose
assistant side is again the reply on success and `"Error"`-prefixed text
on completion failure. -/
theorem c3_atomic_append :
    ∀ (chatC : List ChatMessage → Except Str Str) (sugC : Except Str Str)
      (speech : Str → Option Str) (transC : Except Str Str)
      (message : Str) (hist : List Turn) (voice : Bool) (fp : Str),
      ((pyStrip message).isEmpty = false →
        (process_text_and_update chatC sugC speech message hist voice).history =
          hist ++ [(message, ai_tutor chatC message hist)] ∧
        (∀ r, chatC (tutorMessages message hist) = .ok r →
          ai_tutor chatC message hist = r) ∧
        (∀ e, chatC (tutorMessages message hist) = .error e →
          pyStartsWith (ai_tutor chatC message hist) errorS = true)) ∧
      (((transcribe_audio transC (some fp)).isEmpty ||
          pyStartsWith (transcribe_audio transC (some fp)) errorS) = true →
        (process_audio_and_update transC chatC sugC speech (some fp) hist voice).history =
          hist ++ [(str "(Audio input)",
            if !(transcribe_audio transC (some fp)).isEmpty then
              transcribe_audio transC (some fp)
            else str "Audio could not be transcribed or was empty.")] ∧
        (pyStartsWith
            (if !(transcribe_audio transC (some fp)).isEmpty then
              transcribe_audio transC (some fp)
            else str "Audio could not be transcribed or was empty.") errorS = true ∨
          (if !(transcribe_audio transC (some fp)).isEmpty then
              transcribe_audio transC (some fp)
            else str "Audio could not be transcribed or was empty.") =
            str "Audio could not be transcribed or was empty.")) ∧
      (((transcribe_audio transC (some fp)).isEmpty ||
          pyStartsWith (transcribe_audio transC (some fp)) errorS) = false →
        (process_audio_and_update transC chatC sugC speech (some fp) hist voice).history =
          hist ++ [(transcribe_audio transC (some fp),
            ai_tutor chatC (transcribe_audio transC (some fp)) hist)] ∧
        (∀ r, chatC (tutorMessages (transcribe_audio transC (some fp)) hist) = .ok r →
          ai_tutor chatC (transcribe_audio transC (some fp)) hist = r) ∧
        (∀ e, chatC (tutorMessages (transcribe_audio transC (some fp)) hist) = .error e →
          pyStartsWith (ai_tutor chatC (transcribe_audio transC (some fp)) hist)
            errorS = true)) := by
  intro chatC sugC speech transC message hist voice fp
  refine ⟨?_, ?_, ?_⟩
  · intro hmsg
    refine ⟨?_, ?_, ?_⟩
    · simp only [process_text_and_update, hmsg, Bool.false_eq_true, if_false]
    · intro r hok
      simp only [ai_tutor, hok]
    · intro e herr
      simp only [ai_tutor, herr]
      unfold pyStartsWith errorS
      exact isPrefixOf_append_of_isPrefixOf _
        (isPrefixOf_append_of_isPrefixOf _ (by decide))
  · intro hcond
    constructor
    · simp only [process_audio_and_update, hcond, if_pos]
    · by_cases hue : (transcribe_audio transC (some fp)).isEmpty = true
      · right
        simp [hue]
      · left
        have hes : pyStartsWith (transcribe_audio transC (some fp)) errorS = true := by
          rcases (Bool.or_eq_true _ _).mp hcond with h | h
          · exact absurd h hue
          · exact h
        have : (!(transcribe_audio transC (some fp)).isEmpty) = true := by
          simp [hue]
        rw [if_pos this]
        exact hes
  · intro hcond
    refine ⟨?_, ?_, ?_⟩
    · simp only [process_audio_and_update, hcond, Bool.false_eq_true, if_false]
    · intro r hok
      simp only [ai_tutor, hok]
    · intro e herr
      simp only [ai_tutor, herr]
      unfold pyStartsWith errorS
      exact isPrefixOf_append_of_isPrefixOf _
        (isPrefixOf_append_of_isPrefixOf _ (by decide))

theorem c3_witness :
    ((pyStrip (str "Teach me")).isEmpty = false ∧
      (process_text_and_update (fun _ => .ok (str "Sure")) (.ok (str "1. a"))
          (fun _ => none) (str "Teach me") [] false).history =
        [] ++ [(str "Teach me", ai_tutor (fun _ => .ok (str "Sure")) (str "Teach me") [])]) ∧
    (((transcribe_audio (.error (str "net down")) (some (str "f"))).isEmpty ||
        pyStartsWith (transcribe_audio (.error (str "net down")) (some (str "f")))
          errorS) = true ∧
      (process_audio_and_update (.error (str "net down")) (fun _ => .ok (str "Sure"))
          (.ok (str "1. a")) (fun _ => none) (some (str "f")) [] false).history =
        [] ++ [(str "(Audio input)",
          if !(transcribe_audio (.error (str "net down")) (some (str "f"))).isEmpty then
            transcribe_audio (.error (str "net down")) (some (str "f"))
          else str "Audio could not be transcribed or was empty.")]) :=
  ⟨⟨by decide,
    ((c3_atomic_append (fun _ => .ok (str "Sure")) (.ok (str "1. a")) (fun _ => none)
        (.error (str "net down")) (str "Teach me") [] false (str "f")).1 (by decide)).1⟩,
   ⟨by decide,
    ((c3_atomic_append (fun _ => .ok (str "Sure")) (.ok (str "1. a")) (fun _ => none)
        (.error (str "net down")) (str "Teach me") [] false (str "f")).2.1 (by decide)).1⟩⟩

/-- C1: in PDF rendering, the study-guide lines are processed
independently: the output has exactly one rendered group per input line
(no line ever aborts the document); a line all of whose text chunks are
encodable renders exactly its chunks; a line with an unencodable chunk
renders its encodable initial chunks followed by the visible
`"[Skipped line due to processing error]"` marker (the marker write itself
succeeds since the marker is encodable); and every rendered chunk is
encodable.  `create_pdf` hands exactly this per-line output to the PDF
writer. -/
theorem c1_line_isolation :
    ∀ (encOk : Char → Bool) (study_guide_text : Str),
      strOk encOk skipMarker = true →
      (renderedLines encOk study_guide_text).length =
        (splitNl (pyStrip study_guide_text)).length ∧
      (∀ (i : Nat) (line : Str), (splitNl (pyStrip study_guide_text))[i]? = some line →
        ((lineTexts line).all (strOk encOk) = true →
          (renderedLines encOk study_guide_text)[i]? = some (lineTexts line)) ∧
        ((lineTexts line).all (strOk encOk) = false →
          (renderedLines encOk study_guide_text)[i]? =
            some ((lineTexts line).takeWhile (strOk encOk) ++ [skipMarker]) ∧
          skipMarker ∈ (lineTexts line).takeWhile (strOk encOk) ++ [skipMarker])) ∧
      (∀ (i : Nat) (g : List Str), (renderedLines encOk study_guide_text)[i]? = some g →
        ∀ s ∈ g, strOk encOk s = true) ∧
      (∀ pdfOut : List (List Str) → Option Str,
        create_pdf true encOk pdfOut study_guide_text =
          pdfOut (renderedLines encOk study_guide_text)) := by
  intro encOk text hm
  refine ⟨List.length_map _ _, ?_, ?_, fun pdfOut => rfl⟩
  · intro i line hl
    have hout : (renderedLines encOk text)[i]? = some (renderOne encOk line) := by
      rw [renderedLines, List.getElem?_map, hl, Option.map_some']
    constructor
    · intro hall
      rw [hout]
      simp [renderOne, hall]
    · intro hfail
      rw [hout]
      constructor
      · simp [renderOne, hfail, hm]
      · simp
  · intro i g hg s hs
    rw [renderedLines, List.getElem?_map] at hg
    have hg2 : ∃ a, (splitNl (pyStrip text))[i]? = some a ∧ renderOne encOk a = g := by
      simpa using hg
    obtain ⟨line, -, rfl⟩ := hg2
    by_cases hall : (lineTexts line).all (strOk encOk) = true
    · rw [renderOne] at hs
      simp only [if_pos hall] at hs
      exact List.all_eq_true.mp hall s hs
    · rw [renderOne] at hs
      simp only [if_neg hall, hm, if_pos, List.mem_append] at hs
      rcases hs with hs | hs
      · exact List.mem_takeWhile_imp hs
      · rw [List.mem_singleton.mp hs]
        exact hm

theorem c1_witness :
    (strOk (fun c => decide (c.toNat ≤ 255)) skipMarker = true ∧
      (lineTexts (str "hi 😊")).all (strOk (fun c => decide (c.toNat ≤ 255))) = false) ∧
    (renderedLines (fun c => decide (c.toNat ≤ 255)) (str "# T\nhi 😊\nbye"))[1]? =
      some ((lineTexts (str "hi 😊")).takeWhile (strOk (fun c => decide (c.toNat ≤ 255))) ++
        [skipMarker]) :=
  ⟨⟨by decide, by decide⟩,
    (((c1_line_isolation (fun c => decide (c.toNat ≤ 255)) (str "# T\nhi 😊\nbye")
        (by decide)).2.1 1 (str "hi 😊") (by decide)).2 (by decide)).1⟩

/-- C2 counterexample: for a non-empty transcript whose content-generation
completion fails, the export returns an absent artifact path even though
the PDF renderer and the text renderer succeed on every input; so "absent
only when both renderers fail" does not hold of the code, which also
returns an absent path on a generation failure. -/
theorem c2_counterexample :
    (create_and_download_study_guide (.error (str "boom")) true (fun _ => true)
        (fun _ => some (str "/tmp/guide.pdf")) (fun _ => some (str "/tmp/guide.txt"))
        (str "2025-01-01 12:00") [(str "hi", str "yo")]).file.value = none ∧
    (∀ rendered, (fun _ => some (str "/tmp/guide.pdf") :
        List (List Str) → Option Str) rendered = some (str "/tmp/guide.pdf")) ∧
    (∀ content, (fun _ => some (str "/tmp/guide.txt") :
        Str → Option Str) content = some (str "/tmp/guide.txt")) :=
  ⟨by decide, fun _ => rfl, fun _ => rfl⟩

/-- C2 amended: for every non-empty transcript, when content generation
fails the export returns an absent path with the generation-failure
status; when content generation succeeds it returns the PDF path if the
PDF renderer yields a truthy path, else the text path if the text renderer
yields one, and an absent path with the total-failure status only when
both renderers fail. -/
theorem c2_amended :
    ∀ (genC : Except Str Str) (fpdfAvailable : Bool) (encOk : Char → Bool)
      (pdfOut : List (List Str) → Option Str) (txtOut : Str → Option Str) (ts : Str)
      (hist : List Turn),
      hist ≠ [] →
      (let out := create_and_download_study_guide genC fpdfAvailable encOk pdfOut txtOut ts hist
       let content := generate_study_guide_content genC hist
       let pdfp := create_pdf fpdfAvailable encOk pdfOut content
       let txtp := create_text_file txtOut ts content
       (pyStartsWith content errorS = true →
          out.file.value = none ∧
          out.status = str "*Error generating content: " ++ content ++ str "*") ∧
       (pyStartsWith content errorS = false →
          (pyTruthy pdfp = true →
            out.file.value = pdfp ∧ out.status = str "*Study guide created as PDF!*") ∧
          (pyTruthy pdfp = false ∧ pyTruthy txtp = true →
            out.file.value = txtp ∧
            out.status = str "*Study guide created as Text (PDF failed).*") ∧
          (pyTruthy pdfp = false ∧ pyTruthy txtp = false →
            out.file.value = none ∧
            out.status = str "*Error: Error creating study guide file (PDF/Text).*"))) := by
  intro genC fpdfA encOk pdfOut txtOut ts hist hne
  have hie : hist.isEmpty = false := isEmpty_false_of_ne_nil hne
  constructor
  · intro herr
    have hout : create_and_download_study_guide genC fpdfA encOk pdfOut txtOut ts hist =
        ⟨⟨none, false⟩, str "*Error generating content: " ++
          generate_study_guide_content genC hist ++ str "*", true⟩ := by
      simp only [create_and_download_study_guide, hie, Bool.false_eq_true, if_false,
        herr, if_pos]
    rw [hout]
    exact ⟨rfl, rfl⟩
  · intro hok
    have hsave : create_and_download_study_guide genC fpdfA encOk pdfOut txtOut ts hist =
        (let fs := save_study_guide fpdfA encOk pdfOut txtOut ts
            (generate_study_guide_content genC hist)
         if pyTruthy fs.1 then
           (⟨⟨fs.1, true⟩, str "*" ++ fs.2 ++ str "*", true⟩ : GuideOut)
         else ⟨⟨none, false⟩, str "*Error: " ++ fs.2 ++ str "*", true⟩) := by
      simp only [create_and_download_study_guide, hie, Bool.false_eq_true, if_false,
        hok, if_false]
    refine ⟨?_, ?_, ?_⟩
    · intro hpdf
      have hfs : save_study_guide fpdfA encOk pdfOut txtOut ts
          (generate_study_guide_content genC hist) =
          (create_pdf fpdfA encOk pdfOut (generate_study_guide_content genC hist),
            str "Study guide created as PDF!") := by
        simp only [save_study_guide, hpdf, if_pos]
      rw [hsave, hfs]
      simp only [hpdf, if_pos]
      exact ⟨by trivial, by decide⟩
    · rintro ⟨hpdf, htxt⟩
      have hfs : save_study_guide fpdfA encOk pdfOut txtOut ts
          (generate_study_guide_content genC hist) =
          (create_text_file txtOut ts (generate_study_guide_content genC hist),
            str "Study guide created as Text (PDF failed).") := by
        simp only [save_study_guide, hpdf, Bool.false_eq_true, if_false, htxt, if_pos]
      rw [hsave, hfs]
      simp only [htxt, if_pos]
      exact ⟨by trivial, by decide⟩
    · rintro ⟨hpdf, htxt⟩
      have hfs : save_study_guide fpdfA encOk pdfOut txtOut ts
          (generate_study_guide_content genC hist) =
          (none, str "Error creating study guide file (PDF/Text).") := by
        simp only [save_study_guide, hpdf, Bool.false_eq_true, if_false, htxt]
      rw [hsave, hfs]
      have : pyTruthy (none : Option Str) = false := rfl
      simp only [this, Bool.false_eq_true, if_false]
      exact ⟨by trivial, by decide⟩

theorem c2_witness :
    (([(str "a", str "b")] : List Turn) ≠ [] ∧
      pyStartsWith (generate_study_guide_content (.ok (str "# G\nstuff"))
        [(str "a", str "b")]) errorS = false ∧
      pyTruthy (create_pdf true (fun _ => true) (fun _ => some (str "/tmp/g.pdf"))
        (generate_study_guide_content (.ok (str "# G\nstuff")) [(str "a", str "b")])) = true) ∧
    (create_and_download_study_guide (.ok (str "# G\nstuff")) true (fun _ => true)
        (fun _ => some (str "/tmp/g.pdf")) (fun _ => some (str "/tmp/g.txt"))
        (str "2025") [(str "a", str "b")]).file.value =
      create_pdf true (fun _ => true) (fun _ => some (str "/tmp/g.pdf"))
        (generate_study_guide_content (.ok (str "# G\nstuff")) [(str "a", str "b")]) ∧
    (create_and_download_study_guide (.ok (str "# G\nstuff")) true (fun _ => true)
        (fun _ => some (str "/tmp/g.pdf")) (fun _ => some (str "/tmp/g.txt"))
        (str "2025") [(str "a", str "b")]).status = str "*Study guide created as PDF!*" :=
  ⟨⟨by decide, by decide, by decide⟩,
    ((c2_amended (.ok (str "# G\nstuff")) true (fun _ => true)
        (fun _ => some (str "/tmp/g.pdf")) (fun _ => some (str "/tmp/g.txt"))
        (str "2025") [(str "a", str "b")] (by decide)).2 (by decide)).1 (by decide)⟩

end TutorApp
